import Mathlib

/-!
Shallow embedding of `get_reaction_users.py` (slack-reactors).

The script has four parts:
  * `get_user_name`     — resolve a user id to a display string (fallback chain);
  * `get_reaction_users`— fetch a message's reactions and resolve the users of
                          the reaction matching a requested name;
  * `parse_slack_url`   — extract a channel id and timestamp from a permalink;
  * `parse_args` / `main` — argument handling, token check and rendering.

Network responses are modelled as explicit input data: a profile-lookup
environment `profiles : String → UserInfoResponse` and a single
`ReactionsGetResult` for the one `reactions_get` call.  String slicing
(`s[1:]`, `s[:10]`, `s[10:]`), `str.split` and `str.startswith` are embedded
as structurally recursive operations on `List Char` so that everything
evaluates by `decide` / `rfl`.
-/

namespace SlackReactors

/-- Python `s[:n]` on strings. -/
def strTake (s : String) (n : Nat) : String := String.mk (s.toList.take n)

/-- Python `s[n:]` on strings. -/
def strDrop (s : String) (n : Nat) : String := String.mk (s.toList.drop n)

/-- Python `s.startswith(pre)`. -/
def strStartsWith (s pre : String) : Bool := pre.toList.isPrefixOf s.toList

/-- Python `sub in s` (substring containment), as a decidable proposition. -/
def strContains (s sub : String) : Prop := sub.toList <:+: s.toList

instance (s sub : String) : Decidable (strContains s sub) :=
  inferInstanceAs (Decidable (sub.toList <:+: s.toList))

/-- Python `s.split(sep)[0]` for a one-character separator: the prefix of the
string up to (excluding) the first occurrence of `c`. -/
def takeUntilChar (s : String) (c : Char) : String :=
  String.mk (s.toList.takeWhile (fun a => a ≠ c))

/-- Python `s.split(sep)` for a one-character separator, on character lists:
`"a/b//c".split("/") = ["a","b","","c"]`, `"".split("/") = [""]`. -/
def splitCharList (c : Char) : List Char → List (List Char)
  | [] => [[]]
  | a :: as =>
    if a = c then [] :: splitCharList c as
    else
      match splitCharList c as with
      | [] => [[a]]
      | h :: t => (a :: h) :: t

/-- Python `s.split(sep)` for a one-character separator, on strings. -/
def splitChar (s : String) (c : Char) : List String :=
  (splitCharList c s.toList).map String.mk

/-! ## Data model of the remote API responses -/

/-- The `profile` object of a `users.info` response: both name fields are
optional (checked by key presence in the source). -/
structure Profile where
  display_name : Option String
  real_name : Option String
deriving DecidableEq, Repr

/-- The `user` object of a `users.info` response: the profile plus the
mandatory service-wide handle `name`. -/
structure SlackUser where
  profile : Profile
  name : String
deriving DecidableEq, Repr

/-- A `users.info` response: `ok` flag plus the user object. -/
structure UserInfoResponse where
  ok : Bool
  user : SlackUser
deriving DecidableEq, Repr

/-- One entry of a message's `reactions` array: emoji name and the user ids
that applied it, in service order. -/
structure Reaction where
  name : String
  users : List String
deriving DecidableEq, Repr

/-- The `message` object of a `reactions.get` response; the `reactions` key is
optional. -/
structure Message where
  text : String
  reactions : Option (List Reaction)
deriving DecidableEq, Repr

/-- Outcome of the `reactions.get` call: either a message, or a
`SlackApiError` carrying the service's error code string. -/
inductive ReactionsGetResult where
  | ok (message : Message)
  | apiError (error : String)
deriving DecidableEq, Repr

/-! ## `get_user_name` -/

/-- `get_user_name` from the source: given the `users.info` response for
`user_id`, return the profile's `display_name` if that key is present, else
the profile's `real_name` if present, else the user's `name`; if the response
has `ok == false`, return `user_id` itself. -/
def get_user_name (resp : UserInfoResponse) (user_id : String) : String :=
  if resp.ok then
    match resp.user.profile.display_name with
    | some d => d
    | none =>
      match resp.user.profile.real_name with
      | some r => r
      | none => resp.user.name
  else
    user_id

/-! ## `get_reaction_users` -/

/-- The `for reaction in message["reactions"]` loop of the source: return the
`users` list of the first reaction whose `name` equals `reaction_name`
(the loop body `return`s on the first match). -/
def findReactionUsers (reactions : List Reaction) (reaction_name : String) :
    Option (List String) :=
  match reactions with
  | [] => none
  | r :: rest =>
    if r.name == reaction_name then some r.users
    else findReactionUsers rest reaction_name

/-- `get_reaction_users` from the source, with the two remote calls made
explicit: `fetch` is the `reactions.get` outcome and `profiles` gives each
user's `users.info` response.  On an API error the source raises
`ValueError` with a message depending on the error code; here that is the
`Except.error` branch. -/
def get_reaction_users (profiles : String → UserInfoResponse)
    (channel_id _timestamp reaction_name : String)
    (fetch : ReactionsGetResult) : Except String (List String) :=
  match fetch with
  | .ok message =>
    match message.reactions with
    | some reactions =>
      match findReactionUsers reactions reaction_name with
      | some user_ids =>
        .ok (user_ids.map (fun u => get_user_name (profiles u) u))
      | none => .ok []
    | none => .ok []
  | .apiError error_message =>
    if error_message == "not_in_channel" then
      .error ("Not in channel " ++ channel_id ++
        ". Please add your Slack App to the channel integrations.")
    else
      .error ("Slack API error: " ++ error_message)

/-! ## `parse_slack_url` -/

/-- `url.split("?")[0]` from the source. -/
def stripQuery (url : String) : String := takeUntilChar url '?'

/-- `base_url.split("/")` from the source, after stripping the query. -/
def urlParts (url : String) : List String := splitChar (stripQuery url) '/'

/-- `parse_slack_url` from the source: strip the query string, split on `/`,
take the first segment starting with `C` as the channel id and the first
segment starting with `p`; drop the `p` and join the first 10 remaining
characters to the rest with `.`.  If either `next(...)` raises
`StopIteration`, the source raises `ValueError("Invalid Slack message URL
format")`. -/
def parse_slack_url (url : String) : Except String (String × String) :=
  match (urlParts url).find? (fun p => strStartsWith p "C"),
        (urlParts url).find? (fun p => strStartsWith p "p") with
  | some channel_id, some ts_part =>
    .ok (channel_id,
      strTake (strDrop ts_part 1) 10 ++ "." ++ strDrop (strDrop ts_part 1) 10)
  | _, _ => .error "Invalid Slack message URL format"

/-! ## `parse_args` and `main` -/

/-- The parsed command line before the post-processing in `parse_args`:
`--url` and `--channel` optional (argparse enforces exactly one), `--timestamp`
optional, `--reaction` required. -/
structure Args where
  url : Option String
  channel : Option String
  timestamp : Option String
  reaction : String
deriving DecidableEq, Repr

/-- Outcome of `parse_args`: either a resolved `(channel, timestamp,
reaction)` triple, or an argparse-style usage exit. -/
inductive ArgsResult where
  | ok (channel timestamp reaction : String)
  | usageError (msg : String)
deriving DecidableEq, Repr

/-- The logic of `parse_args` past raw parsing: the mutually exclusive
required group on `--url`/`--channel`, then URL extraction via
`parse_slack_url` (a `ValueError` becomes `parser.error`), otherwise
`--channel` and `--timestamp` must both be present.  No shape validation is
applied to `--timestamp`. -/
def parse_args (args : Args) : ArgsResult :=
  match args.url, args.channel with
  | some _, some _ =>
    .usageError "argument -c/--channel: not allowed with argument -u/--url"
  | none, none =>
    .usageError "one of the arguments -u/--url -c/--channel is required"
  | some u, none =>
    match parse_slack_url u with
    | .ok (channel, timestamp) => .ok channel timestamp args.reaction
    | .error e => .usageError e
  | none, some c =>
    match args.timestamp with
    | some t => .ok c t args.reaction
    | none =>
      .usageError "Channel ID and timestamp are required if URL is not specified"

/-- Python truthiness of the `SLACK_TOKEN` module variable: `None` (unset
environment variable) and the empty string are both falsy. -/
def tokenIsFalsy : Option String → Bool
  | none => true
  | some s => s == ""

/-- Observable events of a run: the two kinds of network calls the script can
make, and lines printed to the console. -/
inductive Event where
  | reactionsGet (channel timestamp : String)
  | usersInfo (user : String)
  | printed (line : String)
deriving DecidableEq, Repr

/-- Whether an event is a network call. -/
def Event.isNetwork : Event → Bool
  | .reactionsGet _ _ => true
  | .usersInfo _ => true
  | .printed _ => false

/-- The event trace of `get_reaction_users`: the progress print and the
`reactions.get` call happen first; on success the message text is printed and,
when a reaction matches, one `users.info` call is made per attached user id
(the `tqdm_asyncio.gather` fan-out). -/
def get_reaction_users_events (channel_id timestamp reaction_name : String)
    (fetch : ReactionsGetResult) : List Event :=
  [Event.printed ("Fetching reactions for message in channel " ++ channel_id ++
      " at timestamp " ++ timestamp),
   Event.reactionsGet channel_id timestamp] ++
  match fetch with
  | .ok message =>
    [Event.printed ("The meessage content: " ++ message.text)] ++
    match message.reactions with
    | some reactions =>
      match findReactionUsers reactions reaction_name with
      | some user_ids =>
        Event.printed ("Fetching usernames for " ++ toString user_ids.length ++
            " users who reacted with :" ++ reaction_name ++ ":") ::
        user_ids.map Event.usersInfo
      | none => []
    | none => []
  | .apiError _ => []

/-- The event trace of `main`: run `parse_args` (argparse exits on a usage
error, before the token check), then check the token and bail out with a
message when it is falsy, then run `get_reaction_users` and render.  The
source computes `sorted_users = sorted(users)` into a variable it never uses;
rendering iterates the unsorted `users`.  A raised `ValueError` is caught and
printed as `Error: ...`. -/
def main_events (token : Option String) (args : Args)
    (profiles : String → UserInfoResponse)
    (fetch : ReactionsGetResult) : List Event :=
  match parse_args args with
  | .usageError e => [Event.printed ("error: " ++ e)]
  | .ok channel timestamp reaction =>
    if tokenIsFalsy token then
      [Event.printed "Error: SLACK_BOT_TOKEN environment variable is not set"]
    else
      get_reaction_users_events channel timestamp reaction fetch ++
      match get_reaction_users profiles channel timestamp reaction fetch with
      | .ok users =>
        if users.isEmpty then
          [Event.printed ("No users found who reacted with :" ++ reaction ++ ":")]
        else
          Event.printed ("\nUsers who reacted (" ++ toString users.length ++ "):") ::
          users.map (fun u => Event.printed ("- " ++ u))
      | .error e => [Event.printed ("Error: " ++ e)]

/-! ## The spec's Timestamp shape, for comparison with what the code builds -/

/-- Modelled from the spec's invariant wording, not from the code (the code
has no such check): a Timestamp is exactly 10 digits, a literal `.`, then
exactly 6 digits. -/
def isValidTimestamp (ts : String) : Bool :=
  ts.toList.length == 17 &&
  (ts.toList.take 10).all Char.isDigit &&
  (ts.toList.drop 10).take 1 == ['.'] &&
  (ts.toList.drop 11).all Char.isDigit

/-! ## Helper lemmas -/

/-- A substring flanked by two other strings is contained in the whole. -/
theorem strContains_of_append (a x b : String) : strContains (a ++ x ++ b) x := by
  refine ⟨a.toList, b.toList, ?_⟩
  show a.data ++ x.data ++ b.data = ((a ++ x) ++ b).data
  rw [String.data_append, String.data_append]

/-- A suffix is contained in the whole string. -/
theorem strContains_of_append_right (a x : String) : strContains (a ++ x) x := by
  refine ⟨a.toList, [], ?_⟩
  show a.data ++ x.data ++ [] = (a ++ x).data
  rw [String.data_append, List.append_nil]

/-- The reaction loop returns `none` when no entry matches. -/
theorem findReactionUsers_eq_none (rs : List Reaction) (n : String)
    (h : ∀ r ∈ rs, ¬ r.name = n) : findReactionUsers rs n = none := by
  induction rs with
  | nil => rfl
  | cons r rest ih =>
    have hr : (r.name == n) = false :=
      beq_eq_false_iff_ne.mpr (h r (List.mem_cons_self r rest))
    simp only [findReactionUsers, hr, Bool.false_eq_true, if_false]
    exact ih (fun x hx => h x (List.mem_cons_of_mem r hx))

/-- The reaction loop returns the users of the first matching entry,
whatever comes after it. -/
theorem findReactionUsers_append_first (l1 l2 : List Reaction) (r : Reaction)
    (n : String) (h1 : ∀ x ∈ l1, ¬ x.name = n) (hr : r.name = n) :
    findReactionUsers (l1 ++ r :: l2) n = some r.users := by
  induction l1 with
  | nil => simp [findReactionUsers, hr]
  | cons a as ih =>
    have ha : (a.name == n) = false :=
      beq_eq_false_iff_ne.mpr (h1 a (List.mem_cons_self a as))
    simp only [List.cons_append, findReactionUsers, ha, Bool.false_eq_true, if_false]
    exact ih (fun x hx => h1 x (List.mem_cons_of_mem a hx))

/-- `find?` returns the first element satisfying the predicate. -/
theorem find?_eq_some_of_first {α : Type} (p : α → Bool) (l1 l2 : List α) (x : α)
    (h1 : ∀ a ∈ l1, p a = false) (hx : p x = true) :
    (l1 ++ x :: l2).find? p = some x := by
  induction l1 with
  | nil => simpa using List.find?_cons_of_pos l2 hx
  | cons a as ih =>
    have ha : p a = false := h1 a (List.mem_cons_self a as)
    rw [List.cons_append, List.find?_cons_of_neg _ (by simp [ha])]
    exact ih (fun b hb => h1 b (List.mem_cons_of_mem a hb))

/-- Stripping the query from a URL that has none is the identity. -/
theorem stripQuery_eq_self (url : String) (h : '?' ∉ url.toList) :
    stripQuery url = url := by
  have hall : ∀ a ∈ url.toList, (decide (a ≠ '?')) = true := by
    intro a ha
    exact decide_eq_true (fun heq => h (heq ▸ ha))
  show String.mk (url.toList.takeWhile fun a => decide (a ≠ '?')) = url
  rw [List.takeWhile_eq_self_iff.mpr hall]
  rfl

/-- Appending `?` and a query string does not change the stripped URL. -/
theorem stripQuery_append_query (url q : String) (h : '?' ∉ url.toList) :
    stripQuery (url ++ "?" ++ q) = stripQuery url := by
  have hall : ∀ a ∈ url.toList, (decide (a ≠ '?')) = true := by
    intro a ha
    exact decide_eq_true (fun heq => h (heq ▸ ha))
  have hdata : (url ++ "?" ++ q).toList = url.toList ++ '?' :: q.toList := by
    show ((url ++ "?") ++ q).data = url.data ++ '?' :: q.data
    rw [String.data_append, String.data_append, List.append_assoc]
    rfl
  have hq : ('?' :: q.toList).takeWhile (fun a => decide (a ≠ '?')) = [] := by
    rw [List.takeWhile_cons]
    simp
  show String.mk ((url ++ "?" ++ q).toList.takeWhile fun a => decide (a ≠ '?')) =
    String.mk (url.toList.takeWhile fun a => decide (a ≠ '?'))
  rw [hdata, List.takeWhile_append, if_pos, hq, List.append_nil,
    List.takeWhile_eq_self_iff.mpr hall]
  rw [List.takeWhile_eq_self_iff.mpr hall]

/-- A string of 10 digits, a dot and 6 more digits passes the Timestamp
shape check. -/
theorem isValidTimestamp_of_parts (a b : List Char)
    (ha : a.length = 10) (hb : b.length = 6)
    (hda : ∀ ch ∈ a, ch.isDigit = true) (hdb : ∀ ch ∈ b, ch.isDigit = true) :
    isValidTimestamp (String.mk (a ++ '.' :: b)) = true := by
  have hcs : (String.mk (a ++ '.' :: b)).toList = a ++ '.' :: b := rfl
  have hdrop10 : (a ++ '.' :: b).drop 10 = '.' :: b := by
    rw [List.drop_append_of_le_length (le_of_eq ha.symm),
      List.drop_eq_nil_of_le (le_of_eq ha), List.nil_append]
  simp only [isValidTimestamp, hcs, Bool.and_eq_true]
  refine ⟨⟨⟨?_, ?_⟩, ?_⟩, ?_⟩
  · simp [ha, hb]
  · rw [List.take_append_of_le_length (le_of_eq ha.symm),
      List.take_of_length_le (le_of_eq ha)]
    exact List.all_eq_true.mpr hda
  · rw [hdrop10]
    rfl
  · have : (a ++ '.' :: b).drop 11 = b := by
      have h10 : (10 : Nat) + 1 = 11 := rfl
      rw [← h10, ← List.drop_drop, hdrop10, List.drop_one, List.tail_cons]
    rw [this]
    exact List.all_eq_true.mpr hdb

/-! ## Claim theorems -/

/-- C1: the Name Resolver is a total function of the profile response — it
returns the profile's `display_name` when that field is present, else the
profile's `real_name` when present, else the user's handle `name`; and when
the lookup reports `ok == false` it returns the original user id unchanged. -/
theorem name_resolver_fallback_chain (resp : UserInfoResponse) (user_id : String) :
    (resp.ok = false → get_user_name resp user_id = user_id) ∧
    (∀ d, resp.ok = true → resp.user.profile.display_name = some d →
      get_user_name resp user_id = d) ∧
    (∀ r, resp.ok = true → resp.user.profile.display_name = none →
      resp.user.profile.real_name = some r → get_user_name resp user_id = r) ∧
    (resp.ok = true → resp.user.profile.display_name = none →
      resp.user.profile.real_name = none →
      get_user_name resp user_id = resp.user.name) := by
  refine ⟨?_, ?_, ?_, ?_⟩ <;> intros <;> simp_all [get_user_name]

/-- Witness for C1: a profile with only `real_name` resolves to it, and a
failed lookup returns the raw user id. -/
theorem name_resolver_fallback_chain_check :
    get_user_name ⟨true, ⟨⟨none, some "Alice Real"⟩, "alice"⟩⟩ "U1" = "Alice Real" ∧
    get_user_name ⟨false, ⟨⟨some "D", some "R"⟩, "hd"⟩⟩ "U2" = "U2" :=
  ⟨(name_resolver_fallback_chain ⟨true, ⟨⟨none, some "Alice Real"⟩, "alice"⟩⟩
      "U1").2.2.1 "Alice Real" rfl rfl rfl,
   (name_resolver_fallback_chain ⟨false, ⟨⟨some "D", some "R"⟩, "hd"⟩⟩ "U2").1 rfl⟩

/-- C9: when the `display_name` field is present, `get_user_name` returns its
value even when it is the empty string — the fallback triggers only on
absence of the field, never on emptiness. -/
theorem display_name_empty_string_returned (resp : UserInfoResponse)
    (user_id s : String) (hok : resp.ok = true)
    (hd : resp.user.profile.display_name = some s) :
    get_user_name resp user_id = s := by
  simp [get_user_name, hok, hd]

/-- Witness for C9: an empty `display_name` is returned even though a
non-empty `real_name` is available. -/
theorem display_name_empty_string_returned_check :
    get_user_name ⟨true, ⟨⟨some "", some "Robert Real"⟩, "bob"⟩⟩ "U3" = "" :=
  display_name_empty_string_returned
    ⟨true, ⟨⟨some "", some "Robert Real"⟩, "bob"⟩⟩ "U3" "" rfl rfl

/-- C4: when the message carries no `reactions` key at all, or none of its
reactions has exactly the requested name, `get_reaction_users` returns the
empty list as a success, not an error. -/
theorem collector_empty_on_no_match (profiles : String → UserInfoResponse)
    (channel timestamp reaction_name text : String) (rs : List Reaction) :
    get_reaction_users profiles channel timestamp reaction_name
      (.ok ⟨text, none⟩) = .ok [] ∧
    ((∀ r ∈ rs, ¬ r.name = reaction_name) →
      get_reaction_users profiles channel timestamp reaction_name
        (.ok ⟨text, some rs⟩) = .ok []) := by
  refine ⟨rfl, fun h => ?_⟩
  simp [get_reaction_users, findReactionUsers_eq_none rs reaction_name h]

/-- Witness for C4: a message whose only reaction is `tada` yields an empty
success for `thumbsup`. -/
theorem collector_empty_on_no_match_check :
    get_reaction_users (fun _ => ⟨false, ⟨⟨none, none⟩, "hd"⟩⟩) "C9" "1.2"
      "thumbsup" (.ok ⟨"m", some [⟨"tada", ["U1"]⟩]⟩) = .ok [] :=
  (collector_empty_on_no_match (fun _ => ⟨false, ⟨⟨none, none⟩, "hd"⟩⟩) "C9"
    "1.2" "thumbsup" "m" [⟨"tada", ["U1"]⟩]).2 (by decide)

/-- C10: when several reaction entries carry the requested name, only the
first one in array order is resolved and returned — the result does not
depend on anything after the first match. -/
theorem first_matching_reaction_wins (profiles : String → UserInfoResponse)
    (channel timestamp reaction_name text : String)
    (l1 l2 : List Reaction) (r : Reaction)
    (h1 : ∀ x ∈ l1, ¬ x.name = reaction_name) (hr : r.name = reaction_name) :
    get_reaction_users profiles channel timestamp reaction_name
      (.ok ⟨text, some (l1 ++ r :: l2)⟩) =
    .ok (r.users.map (fun u => get_user_name (profiles u) u)) := by
  simp [get_reaction_users,
    findReactionUsers_append_first l1 l2 r reaction_name h1 hr]

/-- Witness for C10: with two `tada` entries the users of the first are
returned and the second is ignored. -/
theorem first_matching_reaction_wins_check :
    get_reaction_users (fun _ => ⟨false, ⟨⟨none, none⟩, "hd"⟩⟩) "C9" "1.2" "tada"
      (.ok ⟨"m", some [⟨"eyes", ["U0"]⟩, ⟨"tada", ["U1", "U2"]⟩,
        ⟨"tada", ["U9"]⟩]⟩) = .ok ["U1", "U2"] := by
  have h := first_matching_reaction_wins (fun _ => ⟨false, ⟨⟨none, none⟩, "hd"⟩⟩)
    "C9" "1.2" "tada" "m" [⟨"eyes", ["U0"]⟩] [⟨"tada", ["U9"]⟩]
    ⟨"tada", ["U1", "U2"]⟩ (by decide) rfl
  simpa using h

/-- C5: an API-level failure of the reaction fetch aborts the collector: the
error code `not_in_channel` produces an error whose message contains the
channel reference, any other code produces an error whose message includes
the raw code, and the trace holds exactly one network call — no retry. -/
theorem collector_api_error_messages (profiles : String → UserInfoResponse)
    (channel timestamp reaction_name e : String) :
    (get_reaction_users profiles channel timestamp reaction_name
        (.apiError "not_in_channel") =
      .error ("Not in channel " ++ channel ++
        ". Please add your Slack App to the channel integrations.") ∧
     strContains ("Not in channel " ++ channel ++
        ". Please add your Slack App to the channel integrations.") channel) ∧
    (¬ e = "not_in_channel" →
      get_reaction_users profiles channel timestamp reaction_name
        (.apiError e) = .error ("Slack API error: " ++ e) ∧
      strContains ("Slack API error: " ++ e) e) ∧
    (get_reaction_users_events channel timestamp reaction_name
        (.apiError e)).filter Event.isNetwork =
      [Event.reactionsGet channel timestamp] := by
  refine ⟨⟨?_, strContains_of_append _ channel _⟩, fun h => ⟨?_, ?_⟩, ?_⟩
  · simp [get_reaction_users]
  · simp [get_reaction_users, beq_eq_false_iff_ne.mpr h]
  · exact strContains_of_append_right "Slack API error: " e
  · simp [get_reaction_users_events, List.filter, Event.isNetwork]

/-- Witness for C5: concrete error codes produce the two error messages. -/
theorem collector_api_error_messages_check :
    get_reaction_users (fun _ => ⟨false, ⟨⟨none, none⟩, "hd"⟩⟩) "C0123456789"
      "1.2" "thumbsup" (.apiError "not_in_channel") =
      .error ("Not in channel " ++ "C0123456789" ++
        ". Please add your Slack App to the channel integrations.") ∧
    strContains ("Not in channel " ++ "C0123456789" ++
      ". Please add your Slack App to the channel integrations.") "C0123456789" ∧
    get_reaction_users (fun _ => ⟨false, ⟨⟨none, none⟩, "hd"⟩⟩) "C0123456789"
      "1.2" "thumbsup" (.apiError "ratelimited") =
      .error ("Slack API error: " ++ "ratelimited") := by
  have h := collector_api_error_messages (fun _ => ⟨false, ⟨⟨none, none⟩, "hd"⟩⟩)
    "C0123456789" "1.2" "thumbsup" "ratelimited"
  exact ⟨h.1.1, h.1.2, (h.2.1 (by decide)).1⟩

/-- C7: a permalink whose path has no segment starting with `C`, or none
starting with `p`, makes `parse_slack_url` fail with the invalid-format
error rather than guessing. -/
theorem url_parser_rejects_missing_segments (url : String)
    (h : (∀ s ∈ urlParts url, strStartsWith s "C" = false) ∨
         (∀ s ∈ urlParts url, strStartsWith s "p" = false)) :
    parse_slack_url url = .error "Invalid Slack message URL format" := by
  rcases h with h | h
  · have hc : (urlParts url).find? (fun s => strStartsWith s "C") = none :=
      List.find?_eq_none.mpr (fun x hx => by simp [h x hx])
    cases hp : (urlParts url).find? (fun s => strStartsWith s "p") <;>
      simp [parse_slack_url, hc, hp]
  · have hp : (urlParts url).find? (fun s => strStartsWith s "p") = none :=
      List.find?_eq_none.mpr (fun x hx => by simp [h x hx])
    cases hc : (urlParts url).find? (fun s => strStartsWith s "C") <;>
      simp [parse_slack_url, hc, hp]

/-- Witness for C7: a URL with neither a `C` segment nor a `p` segment is
rejected. -/
theorem url_parser_rejects_missing_segments_check :
    parse_slack_url "https://a.b/c" = .error "Invalid Slack message URL format" :=
  url_parser_rejects_missing_segments "https://a.b/c" (Or.inl (by decide))

/-- C2 fails on the code: a `p` segment with fewer than 16 digits is not
rejected — `parse_slack_url` still splits it at offset 10 and returns a
malformed timestamp — and the `--timestamp` argument is passed through with
no shape validation at all, so a malformed value reaches the network call. -/
theorem timestamp_not_validated_cex :
    parse_slack_url "https://w.slack.com/archives/C123/p12345" =
      .ok ("C123", "12345.") ∧
    isValidTimestamp "12345." = false ∧
    parse_args ⟨none, some "C123", some "not-a-timestamp", "tada"⟩ =
      .ok "C123" "not-a-timestamp" "tada" ∧
    isValidTimestamp "not-a-timestamp" = false := by
  refine ⟨?_, ?_, ?_, ?_⟩ <;> rfl

/-- C2 (amended): when the first `p` segment does carry 16 digits, the
constructed timestamp is exactly 10 digits, a dot and 6 digits; but malformed
timestamp input is not rejected anywhere — neither a short or non-numeric
`p` segment nor an arbitrary `--timestamp` string. -/
theorem timestamp_shape_when_sixteen_digits (url c p : String)
    (hc : (urlParts url).find? (fun s => strStartsWith s "C") = some c)
    (hp : (urlParts url).find? (fun s => strStartsWith s "p") = some p)
    (hlen : (p.toList.drop 1).length = 16)
    (hdig : ∀ ch ∈ p.toList.drop 1, ch.isDigit = true) :
    ∃ ts, parse_slack_url url = .ok (c, ts) ∧ isValidTimestamp ts = true := by
  refine ⟨strTake (strDrop p 1) 10 ++ "." ++ strDrop (strDrop p 1) 10, ?_, ?_⟩
  · unfold parse_slack_url
    rw [hc, hp]
  · have hts : strTake (strDrop p 1) 10 ++ "." ++ strDrop (strDrop p 1) 10 =
        String.mk ((p.toList.drop 1).take 10 ++ '.' ::
          (p.toList.drop 1).drop 10) := by
      apply String.ext
      show ((String.mk ((p.toList.drop 1).take 10) ++ ".") ++
        String.mk ((p.toList.drop 1).drop 10)).data = _
      rw [String.data_append, String.data_append, List.append_assoc]
      rfl
    rw [hts]
    apply isValidTimestamp_of_parts
    · rw [List.length_take, hlen]
      decide
    · rw [List.length_drop, hlen]
    · exact fun ch hch => hdig ch (List.mem_of_mem_take hch)
    · exact fun ch hch => hdig ch (List.mem_of_mem_drop hch)

/-- Witness for the amended C2: a canonical permalink yields a timestamp of
the valid shape. -/
theorem timestamp_shape_when_sixteen_digits_check :
    ∃ ts, parse_slack_url
        "https://workspace.slack.com/archives/C0123456789/p1234567890123456" =
      .ok ("C0123456789", ts) ∧ isValidTimestamp ts = true :=
  timestamp_shape_when_sixteen_digits
    "https://workspace.slack.com/archives/C0123456789/p1234567890123456"
    "C0123456789" "p1234567890123456" (by decide) (by decide) (by decide)
    (by decide)

/-- C3: for a permalink whose first `C`-prefixed path segment is the channel
and whose first `p`-prefixed segment carries 16 digits, `parse_slack_url`
returns that channel segment and the digits split as first 10 then `.` then
last 6; a trailing query string never changes the result; and among several
candidate segments the first in path order is the one selected. -/
theorem url_parser_extracts_channel_and_timestamp (url c p q : String) :
    ((urlParts url).find? (fun s => strStartsWith s "C") = some c →
      (urlParts url).find? (fun s => strStartsWith s "p") = some p →
      (p.toList.drop 1).length = 16 →
      parse_slack_url url =
        .ok (c, String.mk ((p.toList.drop 1).take 10) ++ "." ++
          String.mk ((p.toList.drop 1).drop 10)) ∧
      ((p.toList.drop 1).take 10).length = 10 ∧
      ((p.toList.drop 1).drop 10).length = 6) ∧
    ('?' ∉ url.toList →
      parse_slack_url (url ++ "?" ++ q) = parse_slack_url url) ∧
    (∀ l1 l2 : List String, urlParts url = l1 ++ c :: l2 →
      (∀ s ∈ l1, strStartsWith s "C" = false) → strStartsWith c "C" = true →
      (urlParts url).find? (fun s => strStartsWith s "C") = some c) ∧
    (∀ l1 l2 : List String, urlParts url = l1 ++ p :: l2 →
      (∀ s ∈ l1, strStartsWith s "p" = false) → strStartsWith p "p" = true →
      (urlParts url).find? (fun s => strStartsWith s "p") = some p) := by
  refine ⟨fun hc hp hlen => ⟨?_, ?_, ?_⟩, fun hq => ?_,
    fun l1 l2 hsplit hnone hcp => ?_, fun l1 l2 hsplit hnone hpp => ?_⟩
  · unfold parse_slack_url
    rw [hc, hp]
    rfl
  · rw [List.length_take, hlen]
    decide
  · rw [List.length_drop, hlen]
  · unfold parse_slack_url urlParts
    rw [stripQuery_append_query url q hq]
  · rw [hsplit]
    exact find?_eq_some_of_first _ l1 l2 c hnone hcp
  · rw [hsplit]
    exact find?_eq_some_of_first _ l1 l2 p hnone hpp

/-- Witness for C3: a canonical permalink parses to its channel id and
dotted timestamp, and a thread query string does not change the result. -/
theorem url_parser_extracts_channel_and_timestamp_check :
    parse_slack_url
        "https://workspace.slack.com/archives/C0123456789/p1234567890123456" =
      .ok ("C0123456789", "1234567890.123456") ∧
    parse_slack_url
        ("https://workspace.slack.com/archives/C0123456789/p1234567890123456" ++
          "?" ++ "thread_ts=1234567890.123456") =
      parse_slack_url
        "https://workspace.slack.com/archives/C0123456789/p1234567890123456" := by
  have h := url_parser_extracts_channel_and_timestamp
    "https://workspace.slack.com/archives/C0123456789/p1234567890123456"
    "C0123456789" "p1234567890123456" "thread_ts=1234567890.123456"
  refine ⟨?_, h.2.1 (by decide)⟩
  have h1 := (h.1 (by decide) (by decide) (by decide)).1
  rw [h1]
  rfl

/-- C6: on a matched reaction the collector returns one display name per
attached user id, in the service-listed order, and `main` renders exactly
those names in that same unsorted order (the sorted copy the source computes
is never used). -/
theorem collector_length_order_and_rendering
    (profiles : String → UserInfoResponse) (token : String) (args : Args)
    (channel timestamp reaction_name text : String)
    (rs : List Reaction) (user_ids : List String)
    (hfind : findReactionUsers rs reaction_name = some user_ids) :
    get_reaction_users profiles channel timestamp reaction_name
        (.ok ⟨text, some rs⟩) =
      .ok (user_ids.map (fun u => get_user_name (profiles u) u)) ∧
    (user_ids.map (fun u => get_user_name (profiles u) u)).length =
      user_ids.length ∧
    (∀ i : Nat, (user_ids.map (fun u => get_user_name (profiles u) u))[i]? =
      (user_ids[i]?).map (fun u => get_user_name (profiles u) u)) ∧
    (parse_args args = .ok channel timestamp reaction_name →
      ¬ token = "" → user_ids ≠ [] →
      main_events (some token) args profiles (.ok ⟨text, some rs⟩) =
        get_reaction_users_events channel timestamp reaction_name
          (.ok ⟨text, some rs⟩) ++
        Event.printed ("\nUsers who reacted (" ++
          toString (user_ids.map (fun u => get_user_name (profiles u) u)).length
          ++ "):") ::
        (user_ids.map (fun u => get_user_name (profiles u) u)).map
          (fun n => Event.printed ("- " ++ n))) := by
  have hres : get_reaction_users profiles channel timestamp reaction_name
      (.ok ⟨text, some rs⟩) =
      .ok (user_ids.map (fun u => get_user_name (profiles u) u)) := by
    simp [get_reaction_users, hfind]
  refine ⟨hres, by simp, fun i => List.getElem?_map _ _ i,
    fun hargs htok hne => ?_⟩
  have ht : tokenIsFalsy (some token) = false := by
    simp [tokenIsFalsy, htok]
  have hmap : (user_ids.map (fun u => get_user_name (profiles u) u)).isEmpty =
      false := by
    rw [List.isEmpty_eq_false]
    simp [hne]
  simp only [main_events, hargs, ht, Bool.false_eq_true, if_false, hres, hmap]

/-- Witness for C6: two reacting users give two names in service order, and
`main` prints them in the same order. -/
theorem collector_length_order_and_rendering_check :
    get_reaction_users (fun _ => ⟨false, ⟨⟨none, none⟩, "hd"⟩⟩) "C1" "1.2"
      "tada" (.ok ⟨"m", some [⟨"tada", ["U1", "U2"]⟩]⟩) = .ok ["U1", "U2"] ∧
    main_events (some "xoxb-token") ⟨none, some "C1", some "1.2", "tada"⟩
      (fun _ => ⟨false, ⟨⟨none, none⟩, "hd"⟩⟩)
      (.ok ⟨"m", some [⟨"tada", ["U1", "U2"]⟩]⟩) =
      get_reaction_users_events "C1" "1.2" "tada"
        (.ok ⟨"m", some [⟨"tada", ["U1", "U2"]⟩]⟩) ++
      [Event.printed "\nUsers who reacted (2):",
       Event.printed "- U1", Event.printed "- U2"] := by
  have h := collector_length_order_and_rendering
    (fun _ => ⟨false, ⟨⟨none, none⟩, "hd"⟩⟩) "xoxb-token"
    ⟨none, some "C1", some "1.2", "tada"⟩ "C1" "1.2" "tada" "m"
    [⟨"tada", ["U1", "U2"]⟩] ["U1", "U2"] rfl
  refine ⟨h.1, ?_⟩
  have h4 := h.2.2.2 rfl (by decide) (by decide)
  rw [h4]
  rfl

/-- C8: with the credential absent, `main` performs no network call at all,
and when the arguments parse it prints only the configuration error. -/
theorem missing_token_no_network (args : Args)
    (profiles : String → UserInfoResponse) (fetch : ReactionsGetResult) :
    (∀ e ∈ main_events none args profiles fetch, e.isNetwork = false) ∧
    (∀ channel timestamp reaction,
      parse_args args = .ok channel timestamp reaction →
      main_events none args profiles fetch =
        [Event.printed "Error: SLACK_BOT_TOKEN environment variable is not set"]) := by
  constructor
  · intro e he
    cases h : parse_args args with
    | usageError m =>
      simp only [main_events, h, List.mem_singleton] at he
      subst he
      rfl
    | ok ch ts r =>
      simp only [main_events, h, tokenIsFalsy, if_true,
        List.mem_singleton] at he
      subst he
      rfl
  · intro ch ts r h
    simp [main_events, h, tokenIsFalsy]

/-- Witness for C8: a run with no token and valid arguments prints only the
configuration error, with no network events. -/
theorem missing_token_no_network_check :
    main_events none ⟨none, some "C1", some "1.2", "tada"⟩
      (fun _ => ⟨false, ⟨⟨none, none⟩, "hd"⟩⟩)
      (.ok ⟨"m", some [⟨"tada", ["U1"]⟩]⟩) =
      [Event.printed "Error: SLACK_BOT_TOKEN environment variable is not set"] :=
  (missing_token_no_network ⟨none, some "C1", some "1.2", "tada"⟩
    (fun _ => ⟨false, ⟨⟨none, none⟩, "hd"⟩⟩)
    (.ok ⟨"m", some [⟨"tada", ["U1"]⟩]⟩)).2 "C1" "1.2" "tada" rfl

end SlackReactors
